import Mathlib

/-!
Shallow embedding of the `ghet-rektstension` token-resolution library
(`src/lib.rs`).

The library resolves an authentication token for a host by consulting, in
order: environment variables, a (stub) config file, and the `gh` secure
storage helper invoked as a subprocess.  The embedding makes the two
effectful boundaries explicit parameters:

* `Env`    — a snapshot of the process environment: for a variable name,
  the result `std::env::var` would return (`Ok value`, or the errors
  `NotPresent` / `NotUnicode`).
* `Spawn`  — the behaviour of launching an external command: program name
  and argument list to either a launch-failure kind or the captured
  `Output` (exit-status success flag plus raw stdout/stderr bytes).

`std::str::from_utf8` is embedded as a genuine UTF-8 validator/decoder over
byte lists, and Rust `str::trim` / `str::contains` as `rustTrim` /
`rustContains`.  The `panic!` in `token_for_host` is made visible as the
`ResolveOutcome.panic` constructor.
-/

namespace GhetRekt

/-- Embeds `Var` from lib.rs: the four recognized environment variable names. -/
inductive Var where
  | GHToken
  | GitHubToken
  | GHEnterpriseToken
  | GitHubEnterpriseToken
deriving DecidableEq, Repr

/-- Embeds `Source` from lib.rs: which origin produced a token. -/
inductive Source where
  | Env (var : Var)
  | Config (path : String)
  | Keyring
deriving DecidableEq, Repr

/-- Embeds `Token` from lib.rs: a resolved value tagged with its source. -/
structure Token where
  value : String
  source : Source
deriving DecidableEq, Repr

/-- Embeds `EnvToken` from lib.rs. -/
structure EnvToken where
  value : String
  var : Var
deriving DecidableEq, Repr

/-- Embeds `ConfigToken` from lib.rs. -/
structure ConfigToken where
  value : String
  path : String
deriving DecidableEq, Repr

/-- Embeds `KeyringToken` from lib.rs. -/
structure KeyringToken where
  value : String
deriving DecidableEq, Repr

/-- Embeds `impl From<EnvToken> for Token`. -/
def Token.ofEnvToken (e : EnvToken) : Token :=
  { value := e.value, source := Source.Env e.var }

/-- Embeds `impl From<ConfigToken> for Token`. -/
def Token.ofConfigToken (c : ConfigToken) : Token :=
  { value := c.value, source := Source.Config c.path }

/-- Embeds `impl From<KeyringToken> for Token`. -/
def Token.ofKeyringToken (k : KeyringToken) : Token :=
  { value := k.value, source := Source.Keyring }

instance {ε α : Type _} [DecidableEq ε] [DecidableEq α] :
    DecidableEq (Except ε α) := fun a b =>
  match a, b with
  | Except.ok x, Except.ok y =>
    if h : x = y then Decidable.isTrue (by rw [h]) else Decidable.isFalse (by simp [h])
  | Except.ok _, Except.error _ => Decidable.isFalse (by simp)
  | Except.error _, Except.ok _ => Decidable.isFalse (by simp)
  | Except.error x, Except.error y =>
    if h : x = y then Decidable.isTrue (by rw [h]) else Decidable.isFalse (by simp [h])

/-- Embeds `std::env::VarError` (the `NotUnicode` payload is unused by the code). -/
inductive VarError where
  | NotPresent
  | NotUnicode
deriving DecidableEq, Repr

/-- A read-only snapshot of the process environment: what `std::env::var`
returns for each variable name. -/
def Env : Type := String → Except VarError String

/-- The `to_env_token` closure inside `token_from_env`. -/
def to_env_token (var : Var) : String → EnvToken :=
  fun value => { value := value, var := var }

/-- Embeds `token_from_env` from lib.rs: read the four variables (each via
`std::env::var(..).ok()`), then pick by host class with short-over-long
precedence (`Option::or`). -/
def token_from_env (env : Env) (host : String) : Option EnvToken :=
  let gh_token := (env "GH_TOKEN").toOption.map (to_env_token Var.GHToken)
  let github_token := (env "GITHUB_TOKEN").toOption.map (to_env_token Var.GitHubToken)
  let gh_enterprise_token :=
    (env "GH_ENTERPRISE_TOKEN").toOption.map (to_env_token Var.GHEnterpriseToken)
  let github_enterprise_token :=
    (env "GITHUB_ENTERPRISE_TOKEN").toOption.map (to_env_token Var.GitHubEnterpriseToken)
  if host = "github.com" then
    gh_token.or github_token
  else
    gh_enterprise_token.or github_enterprise_token

/-- Embeds `token_from_config` from lib.rs: a stub that always returns `None`. -/
def token_from_config (_ : String) : Option ConfigToken :=
  none

/-- Embeds `std::str::Utf8Error`: index of the first invalid byte, and the length
of the invalid sequence (`none` for an unexpected end of input). -/
structure Utf8Error where
  valid_up_to : Nat
  error_len : Option Nat
deriving DecidableEq, Repr

/-- Is `b` a UTF-8 continuation byte (`0x80 ..= 0xBF`)? -/
def utf8IsCont (b : Nat) : Bool :=
  0x80 ≤ b && b ≤ 0xBF

/-- UTF-8 validation and decoding over a byte list, tracking the absolute
position `pos` for `Utf8Error.valid_up_to`.  Mirrors the byte-range table
of `core::str::from_utf8` (overlong encodings, surrogates and values above
U+10FFFF are rejected via the tightened ranges for `0xE0`, `0xED`, `0xF0`,
`0xF4`). -/
def utf8DecodeFrom : List Nat → Nat → Except Utf8Error (List Char)
  | [], _ => Except.ok []
  | b :: rest, pos =>
    if b < 0x80 then
      (utf8DecodeFrom rest (pos + 1)).map (fun cs => Char.ofNat b :: cs)
    else if b < 0xC2 then
      Except.error { valid_up_to := pos, error_len := some 1 }
    else if b < 0xE0 then
      match rest with
      | [] => Except.error { valid_up_to := pos, error_len := none }
      | b1 :: rest1 =>
        if utf8IsCont b1 then
          (utf8DecodeFrom rest1 (pos + 2)).map
            (fun cs => Char.ofNat ((b - 0xC0) * 0x40 + (b1 - 0x80)) :: cs)
        else Except.error { valid_up_to := pos, error_len := some 1 }
    else if b < 0xF0 then
      match rest with
      | [] => Except.error { valid_up_to := pos, error_len := none }
      | b1 :: rest1 =>
        if (if b = 0xE0 then 0xA0 ≤ b1 && b1 ≤ 0xBF
            else if b = 0xED then 0x80 ≤ b1 && b1 ≤ 0x9F
            else utf8IsCont b1) then
          match rest1 with
          | [] => Except.error { valid_up_to := pos, error_len := none }
          | b2 :: rest2 =>
            if utf8IsCont b2 then
              (utf8DecodeFrom rest2 (pos + 3)).map
                (fun cs =>
                  Char.ofNat ((b - 0xE0) * 0x1000 + (b1 - 0x80) * 0x40 + (b2 - 0x80)) :: cs)
            else Except.error { valid_up_to := pos, error_len := some 2 }
        else Except.error { valid_up_to := pos, error_len := some 1 }
    else if b < 0xF5 then
      match rest with
      | [] => Except.error { valid_up_to := pos, error_len := none }
      | b1 :: rest1 =>
        if (if b = 0xF0 then 0x90 ≤ b1 && b1 ≤ 0xBF
            else if b = 0xF4 then 0x80 ≤ b1 && b1 ≤ 0x8F
            else utf8IsCont b1) then
          match rest1 with
          | [] => Except.error { valid_up_to := pos, error_len := none }
          | b2 :: rest2 =>
            if utf8IsCont b2 then
              match rest2 with
              | [] => Except.error { valid_up_to := pos, error_len := none }
              | b3 :: rest3 =>
                if utf8IsCont b3 then
                  (utf8DecodeFrom rest3 (pos + 4)).map
                    (fun cs =>
                      Char.ofNat ((b - 0xF0) * 0x40000 + (b1 - 0x80) * 0x1000 +
                        (b2 - 0x80) * 0x40 + (b3 - 0x80)) :: cs)
                else Except.error { valid_up_to := pos, error_len := some 3 }
            else Except.error { valid_up_to := pos, error_len := some 2 }
        else Except.error { valid_up_to := pos, error_len := some 1 }
    else
      Except.error { valid_up_to := pos, error_len := some 1 }

/-- Embeds `std::str::from_utf8` over captured raw bytes. -/
def from_utf8 (bytes : List Nat) : Except Utf8Error String :=
  (utf8DecodeFrom bytes 0).map (fun cs => { data := cs })

/-- Rust `char::is_whitespace`: the Unicode `White_Space` property. -/
def rustIsWhitespace (c : Char) : Bool :=
  let n := c.toNat
  (0x09 ≤ n && n ≤ 0x0D) || n == 0x20 || n == 0x85 || n == 0xA0 || n == 0x1680 ||
    (0x2000 ≤ n && n ≤ 0x200A) || n == 0x2028 || n == 0x2029 || n == 0x202F ||
    n == 0x205F || n == 0x3000

/-- Rust `str::trim`: strip leading and trailing whitespace characters. -/
def rustTrim (s : String) : String :=
  { data := ((s.data.dropWhile rustIsWhitespace).reverse.dropWhile rustIsWhitespace).reverse }

/-- Does the char list start with the pattern `pat`? -/
def startsWithChars : List Char → List Char → Bool
  | [], _ => true
  | _ :: _, [] => false
  | p :: ps, c :: cs => p == c && startsWithChars ps cs

/-- Does the char list contain `pat` as a contiguous run (anywhere)? -/
def containsChars (pat : List Char) : List Char → Bool
  | [] => pat.isEmpty
  | c :: cs => startsWithChars pat (c :: cs) || containsChars pat cs

/-- Rust `str::contains(pat)` for a string pattern: substring match. -/
def rustContains (s pat : String) : Bool :=
  containsChars pat.data s.data

/-- Embeds `std::io::ErrorKind`, opaque to this code: only carried through. -/
structure IOErrorKind where
  code : Nat
deriving DecidableEq, Repr

/-- Embeds `std::process::Output`: exit-status success flag and raw byte streams. -/
structure Output where
  status_success : Bool
  stdout : List Nat
  stderr : List Nat
deriving DecidableEq, Repr

/-- The behaviour of `Command::new(program).args(args).output()`: either a
launch failure (carrying the io error kind) or the captured output. -/
def Spawn : Type := String → List String → Except IOErrorKind Output

/-- Embeds `TokenFromKeyringError` from lib.rs. -/
inductive TokenFromKeyringError where
  | FailToExecute (kind : IOErrorKind)
  | StdoutNotUTF8 (e : Utf8Error)
  | StdErrorNotUTF8 (e : Utf8Error)
  | OutputStatusFail (msg : String)
deriving DecidableEq, Repr

/-- The argument list `token_from_keyring` passes to `gh` (the non-test
`cfg` branch, with `--secure-storage`). -/
def keyring_args (host : String) : List String :=
  ["auth", "token", "--secure-storage", "--hostname", host]

/-- Embeds `token_from_keyring` from lib.rs: spawn `gh`, then classify the outcome
as found / not-found / error. -/
def token_from_keyring (spawn : Spawn) (host : String) :
    Except TokenFromKeyringError (Option KeyringToken) :=
  match spawn "gh" (keyring_args host) with
  | Except.error kind => Except.error (TokenFromKeyringError.FailToExecute kind)
  | Except.ok output =>
    if output.status_success then
      match from_utf8 output.stdout with
      | Except.error e => Except.error (TokenFromKeyringError.StdoutNotUTF8 e)
      | Except.ok value => Except.ok (some { value := rustTrim value })
    else
      match from_utf8 output.stderr with
      | Except.error e => Except.error (TokenFromKeyringError.StdErrorNotUTF8 e)
      | Except.ok error_string =>
        if rustContains error_string "no oauth token found" then
          Except.ok none
        else
          Except.error (TokenFromKeyringError.OutputStatusFail error_string)

/-- The observable outcome of `token_for_host`: a normal return, or the
`panic!` raised on a keyring error. -/
inductive ResolveOutcome where
  | ret (result : Option Token)
  | panic (err : TokenFromKeyringError)
deriving DecidableEq, Repr

/-- Embeds `token_for_host` from lib.rs: environment, then config, then keyring;
a keyring error panics. -/
def token_for_host (env : Env) (spawn : Spawn) (host : String) : ResolveOutcome :=
  match (token_from_env env host).map Token.ofEnvToken with
  | some t => ResolveOutcome.ret (some t)
  | none =>
    match (token_from_config host).map Token.ofConfigToken with
    | some t => ResolveOutcome.ret (some t)
    | none =>
      match token_from_keyring spawn host with
      | Except.error err => ResolveOutcome.panic err
      | Except.ok kt => ResolveOutcome.ret (kt.map Token.ofKeyringToken)

/-- Byte encoding of an ASCII string, for concrete test inputs. -/
def asciiBytes (s : String) : List Nat :=
  s.data.map Char.toNat

/-- Sample snapshot: both plain variables set, enterprise variables unset. -/
def envBothPlain : Env := fun n =>
  if n = "GH_TOKEN" then Except.ok "gh-token-value"
  else if n = "GITHUB_TOKEN" then Except.ok "github-token-value"
  else Except.error VarError.NotPresent

/-- Sample snapshot: both enterprise variables set, plain variables unset. -/
def envBothEnterprise : Env := fun n =>
  if n = "GH_ENTERPRISE_TOKEN" then Except.ok "gh-enterprise-token-value"
  else if n = "GITHUB_ENTERPRISE_TOKEN" then Except.ok "github-enterprise-token-value"
  else Except.error VarError.NotPresent

/-- Sample snapshot: no variable set. -/
def envEmpty : Env := fun _ => Except.error VarError.NotPresent

/-- Sample helper behaviour: the subprocess cannot be launched. -/
def spawnLaunchFail : Spawn := fun _ _ => Except.error { code := 2 }

/-- Sample helper behaviour: success with whitespace-only stdout. -/
def spawnBlankStdout : Spawn := fun _ _ =>
  Except.ok { status_success := true, stdout := asciiBytes "  \n", stderr := [] }

/-- Sample helper behaviour: success with a token on stdout. -/
def spawnTokenStdout : Spawn := fun _ _ =>
  Except.ok { status_success := true, stdout := asciiBytes " keyring-token \n", stderr := [] }

/-- Sample helper behaviour: failure with the benign diagnostic on stderr. -/
def spawnNoOauth : Spawn := fun _ _ =>
  Except.ok { status_success := false, stdout := [],
              stderr := asciiBytes "error: no oauth token found for host" }

/-- Sample helper behaviour: failure with an unrelated diagnostic on stderr. -/
def spawnOtherFail : Spawn := fun _ _ =>
  Except.ok { status_success := false, stdout := [],
              stderr := asciiBytes "some other error" }

/-- Embeds `token_from_env` only depends on the snapshot through the
`std::env::var(..).ok()` view of the four recognized variable names. -/
theorem token_from_env_ext (env env2 : Env) (host : String)
    (h1 : (env "GH_TOKEN").toOption = (env2 "GH_TOKEN").toOption)
    (h2 : (env "GITHUB_TOKEN").toOption = (env2 "GITHUB_TOKEN").toOption)
    (h3 : (env "GH_ENTERPRISE_TOKEN").toOption = (env2 "GH_ENTERPRISE_TOKEN").toOption)
    (h4 : (env "GITHUB_ENTERPRISE_TOKEN").toOption = (env2 "GITHUB_ENTERPRISE_TOKEN").toOption) :
    token_from_env env host = token_from_env env2 host := by
  simp only [token_from_env, h1, h2, h3, h4]

/-- C1: `token_for_host` tries the resolvers in the fixed order environment,
config, keyring, and short-circuits.  An environment result is wrapped and
returned immediately, and the outcome is then independent of the helper
behaviour (keyring never invoked); when the environment yields nothing, a
config result would be wrapped and returned; only when both yield nothing
does the keyring result (or its error, as a panic) decide the outcome. -/
theorem token_for_host_precedence (env : Env) (spawn spawn2 : Spawn) (host : String) :
    (∀ et, token_from_env env host = some et →
        token_for_host env spawn host = ResolveOutcome.ret (some (Token.ofEnvToken et))
          ∧ token_for_host env spawn host = token_for_host env spawn2 host)
      ∧ (token_from_env env host = none →
        (∀ ct, token_from_config host = some ct →
            token_for_host env spawn host = ResolveOutcome.ret (some (Token.ofConfigToken ct)))
          ∧ (token_from_config host = none →
            (∀ kt, token_from_keyring spawn host = Except.ok kt →
                token_for_host env spawn host = ResolveOutcome.ret (kt.map Token.ofKeyringToken))
              ∧ (∀ err, token_from_keyring spawn host = Except.error err →
                token_for_host env spawn host = ResolveOutcome.panic err))) := by
  refine ⟨fun et het => ⟨?_, ?_⟩, fun hnone => ⟨fun ct hct => ?_, fun hcfg => ⟨?_, ?_⟩⟩⟩
  · simp [token_for_host, het]
  · simp [token_for_host, het]
  · simp [token_from_config] at hct
  · intro kt hkt
    simp [token_for_host, hnone, token_from_config, hkt]
  · intro err herr
    simp [token_for_host, hnone, token_from_config, herr]

/-- Witness for C1 at a concrete snapshot: with `GH_TOKEN` set, the result
is the environment token, for two different helper behaviours alike. -/
theorem token_for_host_precedence_witness :
    token_for_host envBothPlain spawnLaunchFail "github.com"
        = ResolveOutcome.ret
            (some { value := "gh-token-value", source := Source.Env Var.GHToken })
      ∧ token_for_host envBothPlain spawnLaunchFail "github.com"
        = token_for_host envBothPlain spawnNoOauth "github.com" := by
  have h :=
    (token_for_host_precedence envBothPlain spawnLaunchFail spawnNoOauth "github.com").1
      { value := "gh-token-value", var := Var.GHToken } (by decide)
  exact ⟨h.1, h.2⟩

/-- C2: for the host `github.com`, `GH_TOKEN` wins (source `Env GHToken`)
whenever it is readable, `GITHUB_TOKEN` is used (source `Env GitHubToken`)
when `GH_TOKEN` yields nothing, and the two enterprise variables are never
consulted: the result only depends on the two plain variables. -/
theorem token_from_env_github_com (env : Env) :
    (∀ v, env "GH_TOKEN" = Except.ok v →
        token_from_env env "github.com" = some { value := v, var := Var.GHToken })
      ∧ ((env "GH_TOKEN").toOption = none →
        ∀ v, env "GITHUB_TOKEN" = Except.ok v →
          token_from_env env "github.com" = some { value := v, var := Var.GitHubToken })
      ∧ (∀ env2 : Env, env2 "GH_TOKEN" = env "GH_TOKEN" →
        env2 "GITHUB_TOKEN" = env "GITHUB_TOKEN" →
        token_from_env env2 "github.com" = token_from_env env "github.com") := by
  refine ⟨fun v hv => ?_, fun hnone v hv => ?_, fun env2 h1 h2 => ?_⟩
  · simp [token_from_env, hv, to_env_token, Option.or, Except.toOption]
  · simp only [token_from_env]
    rw [hnone, hv]
    simp [to_env_token, Option.or, Except.toOption]
  · simp [token_from_env, h1, h2]

/-- Witness for C2: with both plain variables set, `GH_TOKEN` wins; with
the enterprise variables additionally toggled, the result is unchanged. -/
theorem token_from_env_github_com_witness :
    token_from_env envBothPlain "github.com"
        = some { value := "gh-token-value", var := Var.GHToken }
      ∧ token_from_env
          (fun n => if n = "GH_ENTERPRISE_TOKEN" then Except.ok "distraction"
                    else envBothPlain n) "github.com"
        = token_from_env envBothPlain "github.com" := by
  refine ⟨(token_from_env_github_com envBothPlain).1 "gh-token-value" (by rfl), ?_⟩
  exact (token_from_env_github_com envBothPlain).2.2
    (fun n => if n = "GH_ENTERPRISE_TOKEN" then Except.ok "distraction" else envBothPlain n)
    (by rfl) (by rfl)

/-- C3: for every host other than `github.com`, `GH_ENTERPRISE_TOKEN` wins
(source `Env GHEnterpriseToken`) whenever it is readable,
`GITHUB_ENTERPRISE_TOKEN` is used (source `Env GitHubEnterpriseToken`) when
the short form yields nothing, and the two plain variables are never
consulted: the result only depends on the two enterprise variables. -/
theorem token_from_env_other_hosts (env : Env) (host : String) (hh : host ≠ "github.com") :
    (∀ v, env "GH_ENTERPRISE_TOKEN" = Except.ok v →
        token_from_env env host = some { value := v, var := Var.GHEnterpriseToken })
      ∧ ((env "GH_ENTERPRISE_TOKEN").toOption = none →
        ∀ v, env "GITHUB_ENTERPRISE_TOKEN" = Except.ok v →
          token_from_env env host = some { value := v, var := Var.GitHubEnterpriseToken })
      ∧ (∀ env2 : Env, env2 "GH_ENTERPRISE_TOKEN" = env "GH_ENTERPRISE_TOKEN" →
        env2 "GITHUB_ENTERPRISE_TOKEN" = env "GITHUB_ENTERPRISE_TOKEN" →
        token_from_env env2 host = token_from_env env host) := by
  refine ⟨fun v hv => ?_, fun hnone v hv => ?_, fun env2 h1 h2 => ?_⟩
  · simp [token_from_env, hh, hv, to_env_token, Option.or, Except.toOption]
  · simp only [token_from_env]
    rw [hnone, hv]
    simp [hh, to_env_token, Option.or, Except.toOption]
  · simp [token_from_env, hh, h1, h2]

/-- Witness for C3 at host `my.ghes.com`: with both enterprise variables
set, the short form wins; toggling a plain variable changes nothing. -/
theorem token_from_env_other_hosts_witness :
    token_from_env envBothEnterprise "my.ghes.com"
        = some { value := "gh-enterprise-token-value", var := Var.GHEnterpriseToken }
      ∧ token_from_env
          (fun n => if n = "GH_TOKEN" then Except.ok "distraction"
                    else envBothEnterprise n) "my.ghes.com"
        = token_from_env envBothEnterprise "my.ghes.com" := by
  refine ⟨(token_from_env_other_hosts envBothEnterprise "my.ghes.com" (by decide)).1
    "gh-enterprise-token-value" (by rfl), ?_⟩
  exact (token_from_env_other_hosts envBothEnterprise "my.ghes.com" (by decide)).2.2
    (fun n => if n = "GH_TOKEN" then Except.ok "distraction" else envBothEnterprise n)
    (by rfl) (by rfl)

/-- C4: when the helper exits successfully and its stdout decodes as text,
the keyring lookup is found with the trimmed stdout text (an empty trimmed
string included), and when the environment yields nothing the orchestrator
wraps it as a token with source `Keyring`. -/
theorem token_from_keyring_success (env : Env) (spawn : Spawn) (host : String)
    (out : Output) (s : String)
    (hspawn : spawn "gh" (keyring_args host) = Except.ok out)
    (hstatus : out.status_success = true)
    (hdec : from_utf8 out.stdout = Except.ok s) :
    token_from_keyring spawn host = Except.ok (some { value := rustTrim s })
      ∧ (token_from_env env host = none →
        token_for_host env spawn host =
          ResolveOutcome.ret (some { value := rustTrim s, source := Source.Keyring })) := by
  have hk : token_from_keyring spawn host = Except.ok (some { value := rustTrim s }) := by
    simp [token_from_keyring, hspawn, hstatus, hdec]
  refine ⟨hk, fun henv => ?_⟩
  simp [token_for_host, henv, token_from_config, hk, Token.ofKeyringToken]

/-- Witness for C4 with whitespace-only stdout: the lookup is still found,
with the empty string as value, and the orchestrator returns it tagged
`Keyring`. -/
theorem token_from_keyring_success_witness :
    token_from_keyring spawnBlankStdout "github.com" = Except.ok (some { value := "" })
      ∧ token_for_host envEmpty spawnBlankStdout "github.com"
        = ResolveOutcome.ret (some { value := "", source := Source.Keyring }) := by
  have h := token_from_keyring_success envEmpty spawnBlankStdout "github.com"
    { status_success := true, stdout := asciiBytes "  \n", stderr := [] } "  \n"
    (by rfl) (by rfl) (by decide)
  have htrim : rustTrim "  \n" = "" := by decide
  rw [htrim] at h
  exact ⟨h.1, h.2 (by rfl)⟩

/-- C5: when the helper exits with failure status and its stderr decodes as
text, the lookup is "not found" exactly when that text contains the
substring "no oauth token found"; any other decodable failure text is the
`OutputStatusFail` error carrying the full text. -/
theorem token_from_keyring_failure_stderr (spawn : Spawn) (host : String)
    (out : Output) (s : String)
    (hspawn : spawn "gh" (keyring_args host) = Except.ok out)
    (hstatus : out.status_success = false)
    (hdec : from_utf8 out.stderr = Except.ok s) :
    (rustContains s "no oauth token found" = true →
        token_from_keyring spawn host = Except.ok none)
      ∧ (rustContains s "no oauth token found" = false →
        token_from_keyring spawn host =
          Except.error (TokenFromKeyringError.OutputStatusFail s)) := by
  constructor <;> intro hc <;> simp [token_from_keyring, hspawn, hstatus, hdec, hc]

/-- Witness for C5: the benign diagnostic inside a longer message yields
"not found"; an unrelated message yields the carried error. -/
theorem token_from_keyring_failure_stderr_witness :
    token_from_keyring spawnNoOauth "github.com" = Except.ok none
      ∧ token_from_keyring spawnOtherFail "github.com"
        = Except.error (TokenFromKeyringError.OutputStatusFail "some other error") := by
  constructor
  · exact (token_from_keyring_failure_stderr spawnNoOauth "github.com"
      { status_success := false, stdout := [],
        stderr := asciiBytes "error: no oauth token found for host" }
      "error: no oauth token found for host" (by rfl) (by rfl) (by decide)).1 (by decide)
  · exact (token_from_keyring_failure_stderr spawnOtherFail "github.com"
      { status_success := false, stdout := [], stderr := asciiBytes "some other error" }
      "some other error" (by rfl) (by rfl) (by decide)).2 (by decide)

/-- C6: `token_for_host` panics exactly when the environment and config
yield nothing and the keyring lookup errors; whenever the keyring lookup
does not error, the call returns normally. -/
theorem token_for_host_panic_characterization (env : Env) (spawn : Spawn) (host : String) :
    (∀ err, token_for_host env spawn host = ResolveOutcome.panic err ↔
        token_from_env env host = none ∧ token_from_config host = none ∧
          token_from_keyring spawn host = Except.error err)
      ∧ ((∀ e, token_from_keyring spawn host ≠ Except.error e) →
        ∃ r, token_for_host env spawn host = ResolveOutcome.ret r) := by
  constructor
  · intro err
    cases he : token_from_env env host with
    | some et => simp [token_for_host, he]
    | none =>
      cases hk : token_from_keyring spawn host with
      | error e => simp [token_for_host, he, token_from_config, hk]
      | ok kt => simp [token_for_host, he, token_from_config, hk]
  · intro hne
    cases he : token_from_env env host with
    | some et => exact ⟨some (Token.ofEnvToken et), by simp [token_for_host, he]⟩
    | none =>
      cases hk : token_from_keyring spawn host with
      | error e => exact absurd hk (hne e)
      | ok kt =>
        exact ⟨kt.map Token.ofKeyringToken, by simp [token_for_host, he, token_from_config, hk]⟩

/-- Witness for C6: with nothing in the environment and a helper launch
failure, the call panics with `FailToExecute`; with the benign keyring
diagnostic it returns `none` normally. -/
theorem token_for_host_panic_characterization_witness :
    token_for_host envEmpty spawnLaunchFail "github.com"
        = ResolveOutcome.panic (TokenFromKeyringError.FailToExecute { code := 2 })
      ∧ ∃ r, token_for_host envEmpty spawnNoOauth "github.com" = ResolveOutcome.ret r := by
  constructor
  · exact ((token_for_host_panic_characterization envEmpty spawnLaunchFail "github.com").1
      (TokenFromKeyringError.FailToExecute { code := 2 })).2 ⟨by rfl, by rfl, by rfl⟩
  · refine (token_for_host_panic_characterization envEmpty spawnNoOauth "github.com").2 ?_
    intro e he
    rw [show token_from_keyring spawnNoOauth "github.com" = Except.ok none by decide] at he
    simp at he

/-- C7: the keyring lookup errors in exactly four ways, each determined by
the subprocess outcome and carrying the stated payload: launch failure
carries the io error kind; a success status with undecodable stdout carries
the stdout decode error; a failure status with undecodable stderr carries
the stderr decode error; a failure status whose decoded stderr lacks the
benign substring carries that full text. -/
theorem token_from_keyring_error_taxonomy (spawn : Spawn) (host : String) :
    (∀ k, spawn "gh" (keyring_args host) = Except.error k →
        token_from_keyring spawn host
          = Except.error (TokenFromKeyringError.FailToExecute k))
      ∧ (∀ out e, spawn "gh" (keyring_args host) = Except.ok out →
        out.status_success = true → from_utf8 out.stdout = Except.error e →
          token_from_keyring spawn host
            = Except.error (TokenFromKeyringError.StdoutNotUTF8 e))
      ∧ (∀ out e, spawn "gh" (keyring_args host) = Except.ok out →
        out.status_success = false → from_utf8 out.stderr = Except.error e →
          token_from_keyring spawn host
            = Except.error (TokenFromKeyringError.StdErrorNotUTF8 e))
      ∧ (∀ out s, spawn "gh" (keyring_args host) = Except.ok out →
        out.status_success = false → from_utf8 out.stderr = Except.ok s →
        rustContains s "no oauth token found" = false →
          token_from_keyring spawn host
            = Except.error (TokenFromKeyringError.OutputStatusFail s))
      ∧ (∀ err, token_from_keyring spawn host = Except.error err →
        (∃ k, err = TokenFromKeyringError.FailToExecute k
            ∧ spawn "gh" (keyring_args host) = Except.error k)
        ∨ (∃ out e, err = TokenFromKeyringError.StdoutNotUTF8 e
            ∧ spawn "gh" (keyring_args host) = Except.ok out
            ∧ out.status_success = true ∧ from_utf8 out.stdout = Except.error e)
        ∨ (∃ out e, err = TokenFromKeyringError.StdErrorNotUTF8 e
            ∧ spawn "gh" (keyring_args host) = Except.ok out
            ∧ out.status_success = false ∧ from_utf8 out.stderr = Except.error e)
        ∨ (∃ out s, err = TokenFromKeyringError.OutputStatusFail s
            ∧ spawn "gh" (keyring_args host) = Except.ok out
            ∧ out.status_success = false ∧ from_utf8 out.stderr = Except.ok s
            ∧ rustContains s "no oauth token found" = false)) := by
  refine ⟨fun k hk => ?_, fun out e hsp hst hdec => ?_, fun out e hsp hst hdec => ?_,
    fun out s hsp hst hdec hc => ?_, fun err herr => ?_⟩
  · simp [token_from_keyring, hk]
  · simp [token_from_keyring, hsp, hst, hdec]
  · simp [token_from_keyring, hsp, hst, hdec]
  · simp [token_from_keyring, hsp, hst, hdec, hc]
  · cases hsp : spawn "gh" (keyring_args host) with
    | error k =>
      left
      simp [token_from_keyring, hsp] at herr
      exact ⟨k, herr.symm, rfl⟩
    | ok out =>
      cases hst : out.status_success with
      | true =>
        cases hdec : from_utf8 out.stdout with
        | error e =>
          right; left
          simp [token_from_keyring, hsp, hst, hdec] at herr
          exact ⟨out, e, herr.symm, rfl, hst, hdec⟩
        | ok s => simp [token_from_keyring, hsp, hst, hdec] at herr
      | false =>
        cases hdec : from_utf8 out.stderr with
        | error e =>
          right; right; left
          simp [token_from_keyring, hsp, hst, hdec] at herr
          exact ⟨out, e, herr.symm, rfl, hst, hdec⟩
        | ok s =>
          cases hc : rustContains s "no oauth token found" with
          | true => simp [token_from_keyring, hsp, hst, hdec, hc] at herr
          | false =>
            right; right; right
            simp [token_from_keyring, hsp, hst, hdec, hc] at herr
            exact ⟨out, s, herr.symm, rfl, hst, hdec, hc⟩

/-- Witness for C7: a launch failure surfaces as `FailToExecute` with the
kind; invalid stdout bytes on success surface as `StdoutNotUTF8`. -/
theorem token_from_keyring_error_taxonomy_witness :
    token_from_keyring spawnLaunchFail "github.com"
        = Except.error (TokenFromKeyringError.FailToExecute { code := 2 })
      ∧ token_from_keyring (fun _ _ =>
          Except.ok { status_success := true, stdout := [0xFF], stderr := [] }) "github.com"
        = Except.error (TokenFromKeyringError.StdoutNotUTF8
            { valid_up_to := 0, error_len := some 1 }) := by
  constructor
  · exact (token_from_keyring_error_taxonomy spawnLaunchFail "github.com").1
      { code := 2 } (by rfl)
  · exact (token_from_keyring_error_taxonomy (fun _ _ =>
      Except.ok { status_success := true, stdout := [0xFF], stderr := [] }) "github.com").2.1
      { status_success := true, stdout := [0xFF], stderr := [] }
      { valid_up_to := 0, error_len := some 1 } (by rfl) (by rfl) (by decide)

/-- C8: the config resolver is a stub returning no result for every host,
and consequently `token_for_host` never returns a token whose source is
`Config`. -/
theorem token_from_config_stub (env : Env) (spawn : Spawn) (host : String) :
    token_from_config host = none
      ∧ (∀ t, token_for_host env spawn host = ResolveOutcome.ret (some t) →
        ∀ p, t.source ≠ Source.Config p) := by
  refine ⟨rfl, fun t ht p => ?_⟩
  cases he : token_from_env env host with
  | some et =>
    simp [token_for_host, he] at ht
    simp [← ht, Token.ofEnvToken]
  | none =>
    cases hk : token_from_keyring spawn host with
    | error e => simp [token_for_host, he, token_from_config, hk] at ht
    | ok kt =>
      cases kt with
      | none => simp [token_for_host, he, token_from_config, hk] at ht
      | some k =>
        simp [token_for_host, he, token_from_config, hk] at ht
        simp [← ht, Token.ofKeyringToken]

/-- Witness for C8: concrete runs through the environment and keyring paths
produce sources `Env` and `Keyring`, never `Config`. -/
theorem token_from_config_stub_witness :
    token_from_config "github.com" = none
      ∧ ({ value := "gh-token-value", source := Source.Env Var.GHToken } : Token).source
          ≠ Source.Config "/tmp/config" := by
  refine ⟨(token_from_config_stub envBothPlain spawnLaunchFail "github.com").1, ?_⟩
  exact (token_from_config_stub envBothPlain spawnLaunchFail "github.com").2
    { value := "gh-token-value", source := Source.Env Var.GHToken } (by decide) "/tmp/config"

/-- C9: resolution is deterministic — the outcome of `token_for_host` is a
function of the host, the snapshot of the four recognized environment
variables, and the helper behaviour on the one invocation the code makes;
two calls agreeing on those return identical results. -/
theorem token_for_host_deterministic (env env2 : Env) (spawn spawn2 : Spawn) (host : String)
    (h1 : env "GH_TOKEN" = env2 "GH_TOKEN")
    (h2 : env "GITHUB_TOKEN" = env2 "GITHUB_TOKEN")
    (h3 : env "GH_ENTERPRISE_TOKEN" = env2 "GH_ENTERPRISE_TOKEN")
    (h4 : env "GITHUB_ENTERPRISE_TOKEN" = env2 "GITHUB_ENTERPRISE_TOKEN")
    (h5 : spawn "gh" (keyring_args host) = spawn2 "gh" (keyring_args host)) :
    token_for_host env spawn host = token_for_host env2 spawn2 host := by
  have he : token_from_env env host = token_from_env env2 host :=
    token_from_env_ext env env2 host (by rw [h1]) (by rw [h2]) (by rw [h3]) (by rw [h4])
  have hk : token_from_keyring spawn host = token_from_keyring spawn2 host := by
    simp only [token_from_keyring, h5]
  simp only [token_for_host, he, hk]

/-- Witness for C9: two distinct snapshot/helper pairs that agree on the
observed reads produce the same outcome. -/
theorem token_for_host_deterministic_witness :
    token_for_host envBothPlain spawnLaunchFail "github.com"
      = token_for_host
          (fun n => if n = "PATH" then Except.ok "/usr/bin" else envBothPlain n)
          (fun p a => if p = "gh" then spawnLaunchFail p a
                      else Except.ok { status_success := true, stdout := [], stderr := [] })
          "github.com" :=
  token_for_host_deterministic envBothPlain
    (fun n => if n = "PATH" then Except.ok "/usr/bin" else envBothPlain n)
    spawnLaunchFail
    (fun p a => if p = "gh" then spawnLaunchFail p a
                else Except.ok { status_success := true, stdout := [], stderr := [] })
    "github.com" (by rfl) (by rfl) (by rfl) (by rfl) (by rfl)

/-- C10: an environment variable that is present but not valid Unicode is
treated exactly like an unset one, for any variable name and any host: both
the environment resolution and the whole `token_for_host` outcome are
unchanged when `NotUnicode` is replaced by `NotPresent` — a silent
non-match, never an error, a panic, or a mangled value. -/
theorem env_not_unicode_like_unset (env : Env) (spawn : Spawn) (host vname : String) :
    token_from_env
        (fun n => if n = vname then Except.error VarError.NotUnicode else env n) host
      = token_from_env
        (fun n => if n = vname then Except.error VarError.NotPresent else env n) host
    ∧ token_for_host
        (fun n => if n = vname then Except.error VarError.NotUnicode else env n) spawn host
      = token_for_host
        (fun n => if n = vname then Except.error VarError.NotPresent else env n) spawn host := by
  have he : token_from_env
      (fun n => if n = vname then Except.error VarError.NotUnicode else env n) host
      = token_from_env
      (fun n => if n = vname then Except.error VarError.NotPresent else env n) host := by
    apply token_from_env_ext <;> beta_reduce <;> split <;> rfl
  exact ⟨he, by simp only [token_for_host, he]⟩

end GhetRekt
